import Mathlib

/-!
# BoxNCase WMS — verification of the fulfillment / inventory / rates core

Shallow embedding of the warehouse-management core of the `boxncase-wms`
repository:

* the Prisma data model (`Product`, `InventoryTransaction`, `Order`,
  `OrderItem`, `Shipment`) as Lean structures over an explicit `DB` state
  (string `cuid` primary keys are modelled as `Nat`, `Decimal` columns as
  `Rat`);
* the inventory actions `receiveStock` and `adjustStock`
  (`app/(dashboard)/receive/actions.ts`);
* the fulfillment orchestrator `POST /api/shipping/purchase`
  (`app/api/shipping/purchase/route.ts`), split into its pre-transaction
  phase (lookup, status check, stock check, external carrier call) and its
  database transaction (`fulfillTx`), exactly as the source splits them;
* the rate aggregator `POST /api/shipping/rates`;
* the label download route `GET /api/shipping/label/[shipmentId]`;
* the Shopify order webhook `POST /api/webhooks/shopify/orders`.

External collaborators (the carrier HTTP APIs, `Date`/`Math.random`,
Node's HMAC) are modelled as environment parameters; everything the
repository itself computes is translated structurally from the source.
-/

/-- Prisma enum `OrderStatus`. -/
inductive OrderStatus where
  | PENDING
  | PROCESSING
  | SHIPPED
  | CANCELLED
  | ON_HOLD
  deriving DecidableEq, Repr

/-- Prisma enum `TransactionType` (inventory ledger entry kinds). -/
inductive TransactionType where
  | RECEIVED
  | SHIPPED
  | ADJUSTED
  | RETURNED
  deriving DecidableEq, Repr

/-- Prisma model `Product` (fields the core reads; dimensions other than
weight feed only the abstracted external carrier calls and are omitted). -/
structure Product where
  id : Nat
  sku : String
  name : String
  weight : Rat
  currentStock : Int
  lowStockThreshold : Int
  deriving DecidableEq, Repr

/-- Prisma model `InventoryTransaction`: one immutable ledger entry. -/
structure InventoryTransaction where
  productId : Nat
  quantity : Int
  type : TransactionType
  notes : Option String
  userId : Nat
  deriving DecidableEq, Repr

/-- Prisma model `Order` (status-machine-relevant fields). -/
structure Order where
  id : Nat
  orderNumber : String
  status : OrderStatus
  shopifyOrderId : Option Nat
  deriving DecidableEq, Repr

/-- Prisma model `OrderItem`; `productId` is nullable (SKU not in system). -/
structure OrderItem where
  id : Nat
  orderId : Nat
  productId : Option Nat
  sku : String
  name : String
  quantity : Nat
  price : Rat
  deriving DecidableEq, Repr

/-- Prisma model `Shipment`. `labelData` holds the base64-encoded label. -/
structure Shipment where
  id : Nat
  orderId : Nat
  carrier : String
  service : String
  trackingNumber : Option String
  labelUrl : Option String
  labelData : Option String
  labelFormat : Option String
  shipmentCost : Rat
  shippedByUserId : Nat
  deriving DecidableEq, Repr

/-- The database state. `nextShipmentId` models cuid generation for newly
created `Shipment` rows as a fresh counter. -/
structure DB where
  products : List Product
  orders : List Order
  orderItems : List OrderItem
  shipments : List Shipment
  ledger : List InventoryTransaction
  nextShipmentId : Nat
  deriving DecidableEq, Repr

/-- `prisma.product.findUnique({ where: { id } })`. -/
def findProduct (db : DB) (pid : Nat) : Option Product :=
  db.products.find? (fun p => p.id == pid)

/-- `prisma.order.findUnique({ where: { id } })`. -/
def findOrder (db : DB) (oid : Nat) : Option Order :=
  db.orders.find? (fun o => o.id == oid)

/-- `prisma.product.update({ where: { id }, data })`. -/
def updateProduct (db : DB) (pid : Nat) (f : Product → Product) : DB :=
  { db with products := db.products.map (fun p => if p.id = pid then f p else p) }

/-- `prisma.order.update({ where: { id }, data: { status } })`. -/
def setOrderStatus (db : DB) (oid : Nat) (st : OrderStatus) : DB :=
  { db with orders := db.orders.map (fun o => if o.id = oid then { o with status := st } else o) }

/-- Current status of an order, if it exists. -/
def statusOf (db : DB) (oid : Nat) : Option OrderStatus :=
  (findOrder db oid).map (fun o => o.status)

/-- Current stock of a product, if it exists. -/
def stockOf (db : DB) (pid : Nat) : Option Int :=
  (findProduct db pid).map (fun p => p.currentStock)

/-- Sum of the signed quantities of a product's ledger entries. -/
def ledgerSum (l : List InventoryTransaction) (pid : Nat) : Int :=
  (l.map (fun e => if e.productId = pid then e.quantity else 0)).sum

/-- Appending a ledger entry and updating the same product's stock in one
transaction — the shape shared by `receiveStock`, `adjustStock` and the
per-item loop of the fulfillment transaction. -/
def ledgerPairedUpdate (db : DB) (e : InventoryTransaction) (f : Product → Product) : DB :=
  updateProduct { db with ledger := db.ledger ++ [e] } e.productId f

/-- Result of the `receiveStock` server action. -/
inductive ReceiveStockResult where
  | validationErr
  | productNotFound
  | okReceived (productName : String) (quantity : Int) (newStock : Int)
  deriving DecidableEq, Repr

/-- `receiveStock` (`receive/actions.ts`): validate, then in one transaction
create a `RECEIVED` ledger entry and increment the product's stock.
`productId = none` models a missing form field; `quantity` is the parsed
integer. A missing product makes the transaction roll back (`P2025` /
foreign-key failure), leaving the state unchanged. -/
def receiveStock (userId : Nat) (productId : Option Nat) (quantity : Int)
    (notes : Option String) (db : DB) : ReceiveStockResult × DB :=
  match productId with
  | none => (.validationErr, db)
  | some pid =>
    if quantity ≤ 0 then (.validationErr, db)
    else
      match findProduct db pid with
      | none => (.productNotFound, db)
      | some p =>
        let e : InventoryTransaction :=
          { productId := pid, quantity := quantity, type := .RECEIVED
            notes := notes, userId := userId }
        let db2 := ledgerPairedUpdate db e
          (fun q => { q with currentStock := q.currentStock + quantity })
        (.okReceived p.name quantity (p.currentStock + quantity), db2)

/-- Result of the `adjustStock` server action. -/
inductive AdjustStockResult where
  | validationErr
  | productNotFound
  | okAdjusted (productName : String) (previousStock newStock adjustment : Int)
  deriving DecidableEq, Repr

/-- `adjustStock` (`receive/actions.ts`): validate, then in one transaction
compute `adjustment = newStock - currentStock`; when nonzero, create an
`ADJUSTED` ledger entry and set the stock to `newStock`. -/
def adjustStock (productId userId : Nat) (newStock : Int) (notes : String)
    (db : DB) : AdjustStockResult × DB :=
  if newStock < 0 ∨ notes = "" then (.validationErr, db)
  else
    match findProduct db productId with
    | none => (.productNotFound, db)
    | some p =>
      let adjustment := newStock - p.currentStock
      if adjustment = 0 then (.okAdjusted p.name p.currentStock newStock adjustment, db)
      else
        let e : InventoryTransaction :=
          { productId := productId, quantity := adjustment, type := .ADJUSTED
            notes := some notes, userId := userId }
        let db2 := ledgerPairedUpdate db e (fun q => { q with currentStock := newStock })
        (.okAdjusted p.name p.currentStock newStock adjustment, db2)

/-- Request body of `POST /api/shipping/purchase`. -/
structure PurchaseReq where
  orderId : Nat
  carrier : String
  serviceCode : String
  serviceName : Option String
  deriving DecidableEq, Repr

/-- What a carrier's `createShipment` returns on success. -/
structure CarrierShipment where
  trackingNumber : String
  labelBase64 : String
  labelFormat : String
  cost : Rat
  currency : String
  deriving DecidableEq, Repr

/-- Outcome of a carrier's `createShipment` call (external HTTP). -/
inductive CarrierCall where
  | okShipment (s : CarrierShipment)
  | errShipment (e : String)
  deriving DecidableEq, Repr

/-- Environment for one purchase request: carrier configuration flags, the
(externally determined) outcome of each carrier's `createShipment` call,
and the `Date.now` / `Math.random` draws used by `generateMockShipment`. -/
structure CarrierEnv where
  upsConfigured : Bool
  fedexConfigured : Bool
  upsCreate : CarrierCall
  fedexCreate : CarrierCall
  mockTimestamp : String
  mockRandom : String
  mockFedexNum : Nat
  mockCost : Rat
  deriving Repr

/-- The fixed base64 1x1 PNG used by `generateMockShipment`. -/
def mockLabelBase64 : String :=
  "iVBORw0KGgoAAAANSUhEUgAAAAEAAAABCAYAAAAfFcSJAAAADUlEQVR42mNk+M9QDwADhgGAWjR9awAAAABJRU5ErkJggg=="

/-- `generateMockShipment` (purchase route): mock tracking number from the
timestamp/random draws, the fixed placeholder PNG label, random cost. -/
def generateMockShipment (carrier : String) (_serviceCode : String)
    (env : CarrierEnv) : CarrierShipment :=
  let trackingNumber :=
    if carrier = "UPS" then ("1Z" ++ env.mockRandom ++ env.mockTimestamp).take 18
    else toString env.mockFedexNum
  { trackingNumber := trackingNumber, labelBase64 := mockLabelBase64
    labelFormat := "PNG", cost := env.mockCost, currency := "USD" }

/-- One order item together with its (possibly absent) joined product, as
returned by the `findUnique` include in the purchase route. -/
structure JoinedItem where
  item : OrderItem
  product : Option Product
  deriving DecidableEq, Repr

/-- The order lookup with `include: { orderItems: { include: { product } } }`. -/
def orderSnapshot (db : DB) (oid : Nat) : Option (Order × List JoinedItem) :=
  (findOrder db oid).map (fun o =>
    (o, (db.orderItems.filter (fun it => it.orderId == o.id)).map (fun it =>
      { item := it, product := it.productId.bind (findProduct db) })))

/-- The stock-issue message the purchase route pushes for one item, if the
item is offending (no linked product, or stock below the item quantity). -/
def stockIssueMsg (j : JoinedItem) : Option String :=
  match j.product with
  | none => some (j.item.name ++ ": Product not in system")
  | some p =>
    if p.currentStock < (j.item.quantity : Int) then
      some (j.item.name ++ ": Need " ++ toString j.item.quantity ++ ", only "
        ++ toString p.currentStock ++ " in stock")
    else none

/-- The purchase route's aggregated `stockIssues` array (all offending
items, in item order). -/
def stockIssues (items : List JoinedItem) : List String :=
  items.filterMap stockIssueMsg

/-- The stock-issue message built by the dashboard `fulfillOrder` server
action (`orders/[id]/page.tsx` actions), which also names the SKU. -/
def fulfillOrderStockMsg (j : JoinedItem) : Option String :=
  match j.product with
  | none => some (j.item.name ++ " (" ++ j.item.sku ++ "): Product not in system")
  | some p =>
    if p.currentStock < (j.item.quantity : Int) then
      some (j.item.name ++ " (" ++ j.item.sku ++ "): Need " ++ toString j.item.quantity
        ++ ", only " ++ toString p.currentStock ++ " in stock")
    else none

/-- Responses of `POST /api/shipping/purchase` (auth and missing-field
rejections happen before any logic the claims mention and are elided). -/
inductive PurchaseResp where
  | notFoundOrder
  | alreadyShipped
  | cancelledOrder
  | stockIssuesResp (details : List String)
  | carrierErr (e : String)
  | invalidCarrier
  | purchased (shipmentId : Nat) (trackingNumber : String)
  deriving DecidableEq, Repr

/-- Everything the purchase route does before opening the database
transaction: order lookup, status check, aggregated stock check, package
computation (which feeds only the abstracted external call) and the
carrier `createShipment` call — or, for an unconfigured carrier, the mock
substitution. -/
def purchasePhase1 (env : CarrierEnv) (req : PurchaseReq) (db : DB) :
    Except PurchaseResp (Order × List JoinedItem × CarrierShipment) :=
  match orderSnapshot db req.orderId with
  | none => .error .notFoundOrder
  | some (o, items) =>
    if o.status = .SHIPPED then .error .alreadyShipped
    else if o.status = .CANCELLED then .error .cancelledOrder
    else
      let issues := stockIssues items
      if issues ≠ [] then .error (.stockIssuesResp issues)
      else if req.carrier = "UPS" then
        if env.upsConfigured then
          match env.upsCreate with
          | .errShipment e => .error (.carrierErr e)
          | .okShipment s => .ok (o, items, s)
        else .ok (o, items, generateMockShipment req.carrier req.serviceCode env)
      else if req.carrier = "FedEx" then
        if env.fedexConfigured then
          match env.fedexCreate with
          | .errShipment e => .error (.carrierErr e)
          | .okShipment s => .ok (o, items, s)
        else .ok (o, items, generateMockShipment req.carrier req.serviceCode env)
      else .error .invalidCarrier

/-- One iteration of the transaction's item loop: items without a linked
product are skipped; otherwise decrement the product's stock by the item
quantity and append a `SHIPPED` ledger entry naming the order number. -/
def shipItemStep (userId : Nat) (orderNumber carrier : String) (db : DB)
    (j : JoinedItem) : DB :=
  match j.product with
  | none => db
  | some p =>
    let e : InventoryTransaction :=
      { productId := p.id, quantity := -(j.item.quantity : Int), type := .SHIPPED
        notes := some ("Shipped for order " ++ orderNumber ++ " via " ++ carrier)
        userId := userId }
    ledgerPairedUpdate db e
      (fun q => { q with currentStock := q.currentStock - (j.item.quantity : Int) })

/-- The `Shipment` row `tx.shipment.create` inserts (its label URL is
backfilled with the shipment's own id right after creation). -/
def fulfillShipmentRow (o : Order) (req : PurchaseReq) (userId : Nat)
    (sr : CarrierShipment) (db : DB) : Shipment :=
  { id := db.nextShipmentId, orderId := o.id, carrier := req.carrier
    service := req.serviceName.getD req.serviceCode
    trackingNumber := some sr.trackingNumber
    labelUrl := some ("/api/shipping/label/" ++ toString o.id)
    labelData := some sr.labelBase64, labelFormat := some sr.labelFormat
    shipmentCost := sr.cost, shippedByUserId := userId }

/-- Steps 1 of the transaction: create the `Shipment` row and immediately
update its label URL to point at its own generated id. -/
def fulfillTxInsert (o : Order) (req : PurchaseReq) (userId : Nat)
    (sr : CarrierShipment) (db : DB) : DB :=
  let sid := db.nextShipmentId
  let db1 := { db with
    shipments := db.shipments ++ [fulfillShipmentRow o req userId sr db],
    nextShipmentId := sid + 1 }
  { db1 with shipments := db1.shipments.map (fun s =>
      if s.id = sid then { s with labelUrl := some ("/api/shipping/label/" ++ toString sid) } else s) }

/-- The `prisma.$transaction` callback of the purchase route, applied to the
pre-fetched order snapshot: create the `Shipment` row, backfill its label
URL with its own id, run the item loop (stock decrement + `SHIPPED` ledger
entry per linked item), set the order's status to `SHIPPED`. The order's
status is NOT re-read inside the transaction. -/
def fulfillTx (o : Order) (items : List JoinedItem) (req : PurchaseReq)
    (userId : Nat) (sr : CarrierShipment) (db : DB) : Shipment × DB :=
  let db2 := fulfillTxInsert o req userId sr db
  let db3 := items.foldl (shipItemStep userId o.orderNumber req.carrier) db2
  (fulfillShipmentRow o req userId sr db, setOrderStatus db3 o.id .SHIPPED)

/-- `POST /api/shipping/purchase`: phase 1 (validation + external call),
then the transaction; the post-commit Shopify notification is best-effort
and touches no local state. -/
def purchasePOST (env : CarrierEnv) (req : PurchaseReq) (userId : Nat)
    (db : DB) : PurchaseResp × DB :=
  match purchasePhase1 env req db with
  | .error r => (r, db)
  | .ok (o, items, sr) =>
    let (shipment, db2) := fulfillTx o items req userId sr db
    (.purchased shipment.id sr.trackingNumber, db2)

/-- `putOrderOnHold` (`orders/[id]/page.tsx` actions): an unconditional
`prisma.order.update` to `ON_HOLD`; a missing order makes the update
throw (`P2025`), modelled as a `false` result with the state unchanged. -/
def putOrderOnHold (db : DB) (orderId : Nat) : Bool × DB :=
  match findOrder db orderId with
  | none => (false, db)
  | some _ => (true, setOrderStatus db orderId .ON_HOLD)

/-- Result of the `cancelOrder` server action. -/
inductive CancelResult where
  | notFoundOrder
  | cannotCancelShipped
  | okCancelled
  deriving DecidableEq, Repr

/-- `cancelOrder` (`orders/[id]/page.tsx` actions): guarded against
`SHIPPED`, unlike `putOrderOnHold`. -/
def cancelOrder (db : DB) (orderId : Nat) : CancelResult × DB :=
  match findOrder db orderId with
  | none => (.notFoundOrder, db)
  | some o =>
    if o.status = .SHIPPED then (.cannotCancelShipped, db)
    else (.okCancelled, setOrderStatus db orderId .CANCELLED)

/-- `resumeOrder` (`orders/[id]/page.tsx` actions): unconditional update to
`PENDING`. -/
def resumeOrder (db : DB) (orderId : Nat) : Bool × DB :=
  match findOrder db orderId with
  | none => (false, db)
  | some _ => (true, setOrderStatus db orderId .PENDING)

/-- A carrier rate as normalized by the carrier client (`rate.serviceCode`,
`serviceName`, `totalCharge`, `currency`, transit-day estimate and
estimated delivery date, when the carrier supplied them). -/
structure RawRate where
  serviceCode : String
  serviceName : String
  totalCharge : Rat
  currency : String
  transitDays : Option Nat
  deliveryDate : Option String
  deriving DecidableEq, Repr

/-- Outcome of one carrier's `getRates` promise under `Promise.allSettled`. -/
inductive RateCall where
  | fulfilledCall (rates : List RawRate) (error : Option String)
  | rejectedCall (reason : String)
  deriving DecidableEq, Repr

/-- Environment of one rates request: configuration flags, each configured
carrier's settled call outcome, and the `Date`-based formatter used for
fallback delivery estimates (`formatDate (addBusinessDays today d)`). -/
structure RatesEnv where
  upsConfigured : Bool
  fedexConfigured : Bool
  upsCall : RateCall
  fedexCall : RateCall
  fmtBusinessDays : Nat → String

/-- The normalized offer shape (`ShippingRate`) the aggregator returns. -/
structure ShippingRate where
  id : String
  carrier : String
  service : String
  serviceCode : String
  price : Rat
  currency : String
  estimatedDays : Nat
  estimatedDelivery : String
  deriving DecidableEq, Repr

/-- `estimateTransitDays` (rates route): fallback transit-day tables. -/
def estimateTransitDays (serviceCode carrier : String) : Nat :=
  if carrier = "UPS" then
    if serviceCode = "01" then 1
    else if serviceCode = "02" then 2
    else if serviceCode = "03" then 5
    else if serviceCode = "12" then 3
    else if serviceCode = "13" then 1
    else if serviceCode = "14" then 1
    else if serviceCode = "59" then 2
    else 5
  else if carrier = "FedEx" then
    if serviceCode = "FEDEX_GROUND" then 5
    else if serviceCode = "FEDEX_HOME_DELIVERY" then 5
    else if serviceCode = "GROUND_HOME_DELIVERY" then 5
    else if serviceCode = "FEDEX_EXPRESS_SAVER" then 3
    else if serviceCode = "FEDEX_2_DAY" then 2
    else if serviceCode = "FEDEX_2_DAY_AM" then 2
    else if serviceCode = "STANDARD_OVERNIGHT" then 1
    else if serviceCode = "PRIORITY_OVERNIGHT" then 1
    else if serviceCode = "FIRST_OVERNIGHT" then 1
    else 5
  else 5

/-- What the route actually awaits for UPS: the call outcome when the
carrier is configured, otherwise the immediately resolved
`{ rates: [], error: 'UPS not configured' }` stub. -/
def upsOutcome (env : RatesEnv) : RateCall :=
  if env.upsConfigured then env.upsCall
  else .fulfilledCall [] (some "UPS not configured")

/-- FedEx analogue of `upsOutcome`. -/
def fedexOutcome (env : RatesEnv) : RateCall :=
  if env.fedexConfigured then env.fedexCall
  else .fulfilledCall [] (some "FedEx not configured")

/-- The single advisory error string a carrier's outcome pushes onto
`errors` (none when the call fulfilled without an error field). -/
def carrierAdvisories (carrierName : String) (oc : RateCall) : List String :=
  match oc with
  | .fulfilledCall _ (some e) => [carrierName ++ ": " ++ e]
  | .fulfilledCall _ none => []
  | .rejectedCall reason => [carrierName ++ ": " ++ reason]

/-- Whether a settled carrier call counts as failing/unconfigured (it
contributed an advisory error). -/
def rateCallFailed : RateCall → Bool
  | .fulfilledCall _ (some _) => true
  | .fulfilledCall _ none => false
  | .rejectedCall _ => true

/-- Normalization of one UPS raw rate into a `ShippingRate`
(`businessDaysInTransit` falling back to the estimate table, delivery date
falling back to the formatter). -/
def mapUpsRate (env : RatesEnv) (r : RawRate) : ShippingRate :=
  let estimatedDays := r.transitDays.getD (estimateTransitDays r.serviceCode "UPS")
  { id := "ups-" ++ r.serviceCode, carrier := "UPS", service := r.serviceName
    serviceCode := r.serviceCode, price := r.totalCharge, currency := r.currency
    estimatedDays := estimatedDays
    estimatedDelivery := r.deliveryDate.getD (env.fmtBusinessDays estimatedDays) }

/-- FedEx analogue of `mapUpsRate`. -/
def mapFedexRate (env : RatesEnv) (r : RawRate) : ShippingRate :=
  let estimatedDays := r.transitDays.getD (estimateTransitDays r.serviceCode "FedEx")
  { id := "fedex-" ++ r.serviceCode, carrier := "FedEx", service := r.serviceName
    serviceCode := r.serviceCode, price := r.totalCharge, currency := r.currency
    estimatedDays := estimatedDays
    estimatedDelivery := r.deliveryDate.getD (env.fmtBusinessDays estimatedDays) }

/-- Offers a settled carrier call contributes to `allRates`. -/
def carrierRates (oc : RateCall) (norm : RawRate → ShippingRate) : List ShippingRate :=
  match oc with
  | .fulfilledCall rates _ => rates.map norm
  | .rejectedCall _ => []

/-- The merged (pre-sort) `allRates` list: UPS offers then FedEx offers. -/
def mergedRates (env : RatesEnv) : List ShippingRate :=
  carrierRates (upsOutcome env) (mapUpsRate env)
    ++ carrierRates (fedexOutcome env) (mapFedexRate env)

/-- The accumulated `errors` array: UPS advisory then FedEx advisory. -/
def mergedAdvisories (env : RatesEnv) : List String :=
  carrierAdvisories "UPS" (upsOutcome env) ++ carrierAdvisories "FedEx" (fedexOutcome env)

/-- Price order used by `allRates.sort((a, b) => a.price - b.price)`. -/
def rateLE (a b : ShippingRate) : Prop := a.price ≤ b.price

instance : DecidableRel rateLE := fun a b => inferInstanceAs (Decidable (a.price ≤ b.price))

instance : IsTotal ShippingRate rateLE := ⟨fun a b => le_total a.price b.price⟩

instance : IsTrans ShippingRate rateLE := ⟨fun _ _ _ h1 h2 => le_trans h1 h2⟩

/-- The route's price-ascending sort (a JS comparison sort, modelled as
insertion sort; only sortedness and content are observable). -/
def sortByPrice (l : List ShippingRate) : List ShippingRate :=
  List.insertionSort rateLE l

/-- `Math.round(x * 100) / 100` on exact rationals. -/
def jsRound100 (x : Rat) : Rat := (⌊x * 100 + 1 / 2⌋ : Int) / 100

/-- `generateMockRates` (rates route): the deterministic placeholder table
used when no carrier is configured, sorted ascending by price. -/
def generateMockRates (weight : Rat) (fmt : Nat → String) : List ShippingRate :=
  let weightMultiplier := max 1 (weight / 2)
  sortByPrice
    [ { id := "ups-03", carrier := "UPS", service := "UPS Ground", serviceCode := "03"
        price := jsRound100 ((899 : Rat) / 100 * weightMultiplier), currency := "USD"
        estimatedDays := 5, estimatedDelivery := fmt 5 }
    , { id := "ups-02", carrier := "UPS", service := "UPS 2nd Day Air", serviceCode := "02"
        price := jsRound100 ((2499 : Rat) / 100 * weightMultiplier), currency := "USD"
        estimatedDays := 2, estimatedDelivery := fmt 2 }
    , { id := "fedex-FEDEX_GROUND", carrier := "FedEx", service := "FedEx Ground"
        serviceCode := "FEDEX_GROUND"
        price := jsRound100 ((949 : Rat) / 100 * weightMultiplier), currency := "USD"
        estimatedDays := 5, estimatedDelivery := fmt 5 }
    , { id := "fedex-FEDEX_2_DAY", carrier := "FedEx", service := "FedEx 2Day"
        serviceCode := "FEDEX_2_DAY"
        price := jsRound100 ((2299 : Rat) / 100 * weightMultiplier), currency := "USD"
        estimatedDays := 2, estimatedDelivery := fmt 2 } ]

/-- Total package weight of an order's joined items, floored at the 0.5 lb
minimum (`Math.max(MIN_WEIGHT, totalWeight)`). -/
def totalWeightOf (items : List JoinedItem) : Rat :=
  max (1 / 2)
    ((items.map (fun j =>
      match j.product with
      | some p => p.weight * (j.item.quantity : Rat)
      | none => 0)).sum)

/-- Responses of `POST /api/shipping/rates`. The `cheapestRate` field of
the JSON body is the head of the returned sorted list and is not carried
separately. -/
inductive RatesResp where
  | notFoundOrder
  | mockSuccess (rates : List ShippingRate) (errors : List String)
  | successRates (rates : List ShippingRate) (errors : Option (List String))
  | failureRates (details : List String)
  deriving Repr

/-- Whether a rates response is the non-live placeholder (`mock: true`). -/
def isMockResp : RatesResp → Bool
  | .mockSuccess _ _ => true
  | _ => false

/-- Whether a rates response is the hard failure (HTTP 500). -/
def isFailureResp : RatesResp → Bool
  | .failureRates _ => true
  | _ => false

/-- The offer list carried by a rates response. -/
def respRates : RatesResp → List ShippingRate
  | .mockSuccess r _ => r
  | .successRates r _ => r
  | _ => []

/-- `POST /api/shipping/rates`: look up the order, compute the package
(whose dimensions feed only the abstracted carrier calls), settle both
carriers, merge, and according to the merged list return sorted offers
with advisories, the hard failure, or — only with zero carriers
configured — the mock table. -/
def getRates (env : RatesEnv) (orderId : Nat) (db : DB) : RatesResp :=
  match orderSnapshot db orderId with
  | none => .notFoundOrder
  | some (_o, items) =>
    let totalWeight := totalWeightOf items
    let allRates := mergedRates env
    let errors := mergedAdvisories env
    if allRates = [] then
      if ¬env.upsConfigured ∧ ¬env.fedexConfigured then
        .mockSuccess (generateMockRates totalWeight env.fmtBusinessDays)
          ["No carriers configured - using mock data"]
      else .failureRates errors
    else .successRates (sortByPrice allRates) (if errors = [] then none else some errors)

/-- Base64 alphabet value of a character (padding and any other character
is ignored by Node's lenient decoder). -/
def b64Val (c : Char) : Option Nat :=
  if 'A' ≤ c ∧ c ≤ 'Z' then some (c.toNat - 'A'.toNat)
  else if 'a' ≤ c ∧ c ≤ 'z' then some (c.toNat - 'a'.toNat + 26)
  else if '0' ≤ c ∧ c ≤ '9' then some (c.toNat - '0'.toNat + 52)
  else if c = '+' then some 62
  else if c = '/' then some 63
  else none

/-- Bit-accumulator turning a stream of 6-bit base64 values into bytes. -/
def b64Acc : List Nat → Nat → Nat → List Nat
  | [], _, _ => []
  | v :: vs, acc, nbits =>
    let acc2 := acc * 64 + v
    let nbits2 := nbits + 6
    if 8 ≤ nbits2 then
      (acc2 / 2 ^ (nbits2 - 8)) :: b64Acc vs (acc2 % 2 ^ (nbits2 - 8)) (nbits2 - 8)
    else b64Acc vs acc2 nbits2

/-- `Buffer.from(s, 'base64')`: the decoded bytes of a base64 string. -/
def base64Decode (s : String) : List Nat :=
  b64Acc (s.toList.filterMap b64Val) 0 0

/-- ASCII uppercase of one character (JS `toUpperCase` on the format
strings in play, which are ASCII). -/
def asciiUpper (c : Char) : Char :=
  if 'a' ≤ c ∧ c ≤ 'z' then Char.ofNat (c.toNat - 32) else c

/-- `format.toUpperCase()`. -/
def strUpper (s : String) : String :=
  String.mk (s.toList.map asciiUpper)

/-- The content-type/extension table of the label route, keyed by the
upper-cased stored format. -/
def labelContentType (format : String) : String × String :=
  if format = "PNG" then ("image/png", "png")
  else if format = "GIF" then ("image/gif", "gif")
  else if format = "ZPL" then ("application/octet-stream", "zpl")
  else if format = "PDF" then ("application/pdf", "pdf")
  else if format = "JPG" ∨ format = "JPEG" then ("image/jpeg", "jpg")
  else ("application/octet-stream", "bin")

/-- The download filename `label-<carrier>-<trackingNumber ?? id>.<ext>`. -/
def labelFilename (s : Shipment) : String :=
  "label-" ++ s.carrier ++ "-" ++ (s.trackingNumber.getD (toString s.id)) ++ "."
    ++ (labelContentType (strUpper (s.labelFormat.getD "PNG"))).2

/-- The `Content-Disposition` header, chosen by the `download=true` flag. -/
def labelDisposition (download : Bool) (s : Shipment) : String :=
  (if download then "attachment" else "inline") ++ "; filename=\"" ++ labelFilename s ++ "\""

/-- Responses of `GET /api/shipping/label/[shipmentId]`. -/
inductive LabelResp where
  | notFoundResp (msg : String)
  | okResp (body : List Nat) (contentType : String) (disposition : String)
  deriving DecidableEq, Repr

/-- `GET /api/shipping/label/[shipmentId]`: look up the shipment, 404 when
absent or without label data, otherwise serve the base64-decoded stored
label bytes with the format-derived content type and the caller-chosen
disposition. -/
def labelGET (db : DB) (shipmentId : Nat) (download : Bool) : LabelResp :=
  match db.shipments.find? (fun s => s.id == shipmentId) with
  | none => .notFoundResp "Shipment not found"
  | some s =>
    match s.labelData with
    | none => .notFoundResp "No label data available for this shipment"
    | some d =>
      let fmt := strUpper (s.labelFormat.getD "PNG")
      .okResp (base64Decode d) (labelContentType fmt).1 (labelDisposition download s)

/-- `crypto.timingSafeEqual(Buffer.from(a), Buffer.from(b))`: throws a
`RangeError` when the UTF-8 byte lengths differ, otherwise compares for
equality (its constant-time nature is not observable in this model). -/
def timingSafeEqualStr (a b : String) : Except String Bool :=
  if a.utf8ByteSize = b.utf8ByteSize then .ok (a == b)
  else .error "Input buffers must have the same byte length"

/-- `verifyWebhookSignature` (webhook route): HMAC-SHA256 the raw body with
the shared secret (the HMAC itself is Node library code, taken as an
environment function `secret → body → base64 digest`), then
`timingSafeEqual` against the supplied signature header. -/
def verifyWebhookSignature (hmacBase64 : String → String → String)
    (body signature secret : String) : Except String Bool :=
  timingSafeEqualStr signature (hmacBase64 secret body)

/-- Environment of the webhook route: the configured shared secret, the
HMAC primitive, and the order-upsert step, abstracted as a state
transformer (the claims concern only the rejection paths, which must not
reach it). -/
structure WebhookEnv where
  secret : Option String
  hmacBase64 : String → String → String
  processOrder : String → DB → DB

/-- Responses of `POST /api/webhooks/shopify/orders`. -/
inductive WebhookResp where
  | unauthorizedMissing
  | invalidSignature
  | received (errorMsg : Option String)
  deriving DecidableEq, Repr

/-- HTTP status of a webhook response (the catch-all handler answers 200
even on errors, to stop Shopify retries). -/
def webhookStatus : WebhookResp → Nat
  | .unauthorizedMissing => 401
  | .invalidSignature => 401
  | .received _ => 200

/-- `POST /api/webhooks/shopify/orders`: 401 when the signature header or
the secret is missing; then signature verification — whose length-mismatch
`RangeError` propagates to the outer catch, which answers 200 with the
error message; 401 on a failed comparison; on success, process the order
payload. -/
def webhookPOST (env : WebhookEnv) (body : String) (signature : Option String)
    (db : DB) : WebhookResp × DB :=
  match signature, env.secret with
  | none, _ => (.unauthorizedMissing, db)
  | some _, none => (.unauthorizedMissing, db)
  | some sig, some sec =>
    match verifyWebhookSignature env.hmacBase64 body sig sec with
    | .error m => (.received (some m), db)
    | .ok false => (.invalidSignature, db)
    | .ok true => (.received none, env.processOrder body db)

/-- The state-mutating inventory operations of the core: receive stock,
adjust stock, and a fulfillment request (the purchase route run against
the current state). -/
inductive WmsOp where
  | receiveOp (userId : Nat) (productId : Option Nat) (quantity : Int) (notes : Option String)
  | adjustOp (productId userId : Nat) (newStock : Int) (notes : String)
  | fulfillOp (env : CarrierEnv) (req : PurchaseReq) (userId : Nat)

/-- State effect of one operation (its response discarded). -/
def applyOp (op : WmsOp) (db : DB) : DB :=
  match op with
  | .receiveOp u pid q n => (receiveStock u pid q n db).2
  | .adjustOp pid u ns notes => (adjustStock pid u ns notes db).2
  | .fulfillOp env req u => (purchasePOST env req u db).2

/-- State effect of a sequence of operations, applied left to right. -/
def applyOps (ops : List WmsOp) (db : DB) : DB :=
  ops.foldl (fun d op => applyOp op d) db

/-- `find?` by id commutes with an id-preserving keyed map update. -/
theorem find_map_keyed_update (l : List Product) (pid0 : Nat) (f : Product → Product)
    (hf : ∀ p, (f p).id = p.id) (pid : Nat) :
    (l.map (fun p => if p.id = pid0 then f p else p)).find? (fun p => p.id == pid)
      = (l.find? (fun p => p.id == pid)).map (fun p => if p.id = pid0 then f p else p) := by
  induction l with
  | nil => rfl
  | cons a l ih =>
    have hid : ((if a.id = pid0 then f a else a).id == pid) = (a.id == pid) := by
      split
      · rw [hf]
      · rfl
    simp only [List.map_cons, List.find?, hid]
    cases h : (a.id == pid) with
    | true => rfl
    | false => exact ih

/-- Appending one entry shifts a product's ledger sum by that entry's
contribution. -/
theorem ledgerSum_append_single (l : List InventoryTransaction)
    (e : InventoryTransaction) (pid : Nat) :
    ledgerSum (l ++ [e]) pid
      = ledgerSum l pid + (if e.productId = pid then e.quantity else 0) := by
  simp [ledgerSum]

/-- Core preservation step: a transaction that appends a ledger entry and
applies a matching stock change to the same product keeps
`currentStock - ledgerSum` unchanged for every product. -/
theorem ledgerPairedUpdate_delta (db : DB) (e : InventoryTransaction)
    (f : Product → Product) (hf : ∀ p, (f p).id = p.id)
    (hstock : ∀ p, findProduct db e.productId = some p →
      (f p).currentStock = p.currentStock + e.quantity)
    (pid : Nat) (p2 : Product)
    (h : findProduct (ledgerPairedUpdate db e f) pid = some p2) :
    ∃ p1, findProduct db pid = some p1 ∧
      p2.currentStock - ledgerSum (ledgerPairedUpdate db e f).ledger pid
        = p1.currentStock - ledgerSum db.ledger pid := by
  have hled : (ledgerPairedUpdate db e f).ledger = db.ledger ++ [e] := rfl
  have hfind : findProduct (ledgerPairedUpdate db e f) pid
      = (findProduct db pid).map (fun p => if p.id = e.productId then f p else p) := by
    simpa [ledgerPairedUpdate, updateProduct, findProduct] using
      find_map_keyed_update db.products e.productId f hf pid
  rw [hfind] at h
  obtain ⟨p1, hp1, hmap⟩ := Option.map_eq_some'.mp h
  have hpid : p1.id = pid := by
    have h2 := List.find?_some hp1
    simpa using h2
  refine ⟨p1, hp1, ?_⟩
  rw [hled, ledgerSum_append_single]
  by_cases hc : e.productId = pid
  · have hp1e : findProduct db e.productId = some p1 := by rw [hc]; exact hp1
    have hfp1 : p2 = f p1 := by
      rw [← hmap]
      simp [hpid, hc]
    rw [hfp1, hstock p1 hp1e]
    simp [hc]
  · have hp2 : p2 = p1 := by
      rw [← hmap]
      have : ¬(p1.id = e.productId) := by rw [hpid]; exact fun hx => hc hx.symm
      simp [this]
    rw [hp2]
    simp [hc]

/-- `dbNext` preserves, for every product, the difference between current
stock and ledger sum relative to `db` (and creates no product rows). -/
def preservesDiff (db dbNext : DB) : Prop :=
  ∀ pid p2, findProduct dbNext pid = some p2 →
    ∃ p1, findProduct db pid = some p1 ∧
      p2.currentStock - ledgerSum dbNext.ledger pid
        = p1.currentStock - ledgerSum db.ledger pid

theorem preservesDiff_refl (db : DB) : preservesDiff db db :=
  fun _pid p2 h => ⟨p2, h, rfl⟩

theorem preservesDiff_trans {a b c : DB} (h1 : preservesDiff a b)
    (h2 : preservesDiff b c) : preservesDiff a c := by
  intro pid p3 h3
  obtain ⟨p2, hp2, hd2⟩ := h2 pid p3 h3
  obtain ⟨p1, hp1, hd1⟩ := h1 pid p2 hp2
  exact ⟨p1, hp1, by omega⟩

theorem preservesDiff_of_eq {db dbNext : DB}
    (hp : dbNext.products = db.products) (hl : dbNext.ledger = db.ledger) :
    preservesDiff db dbNext := by
  intro pid p2 h
  refine ⟨p2, ?_, by rw [hl]⟩
  rw [findProduct, ← hp]
  exact h

theorem preservesDiff_ledgerPairedUpdate (db : DB) (e : InventoryTransaction)
    (f : Product → Product) (hf : ∀ p, (f p).id = p.id)
    (hstock : ∀ p, findProduct db e.productId = some p →
      (f p).currentStock = p.currentStock + e.quantity) :
    preservesDiff db (ledgerPairedUpdate db e f) :=
  fun pid p2 h => ledgerPairedUpdate_delta db e f hf hstock pid p2 h

/-- `receiveStock` leaves `currentStock - ledgerSum` unchanged everywhere. -/
theorem receiveStock_preservesDiff (u : Nat) (pidOpt : Option Nat) (q : Int)
    (n : Option String) (db : DB) :
    preservesDiff db (receiveStock u pidOpt q n db).2 := by
  cases pidOpt with
  | none => exact preservesDiff_refl db
  | some pidR =>
    by_cases hq : q ≤ 0
    · simp only [receiveStock, if_pos hq]
      exact preservesDiff_refl db
    · simp only [receiveStock, if_neg hq]
      cases hfind : findProduct db pidR with
      | none => exact preservesDiff_refl db
      | some p =>
        exact preservesDiff_ledgerPairedUpdate db _ _ (fun _ => rfl) (fun _ _ => rfl)

/-- `adjustStock` leaves `currentStock - ledgerSum` unchanged everywhere. -/
theorem adjustStock_preservesDiff (productId userId : Nat) (newStock : Int)
    (notes : String) (db : DB) :
    preservesDiff db (adjustStock productId userId newStock notes db).2 := by
  by_cases hv : newStock < 0 ∨ notes = ""
  · simp only [adjustStock, if_pos hv]
    exact preservesDiff_refl db
  · simp only [adjustStock, if_neg hv]
    cases hfind : findProduct db productId with
    | none => exact preservesDiff_refl db
    | some p =>
      by_cases hz : newStock - p.currentStock = 0
      · simp only [if_pos hz]
        exact preservesDiff_refl db
      · simp only [if_neg hz]
        refine preservesDiff_ledgerPairedUpdate db _ _ (fun _ => rfl) ?_
        intro q hqfind
        have hqp : q = p := by
          rw [hfind] at hqfind
          exact (Option.some.inj hqfind).symm
        subst hqp
        simp

theorem shipItemStep_preservesDiff (u : Nat) (onum carrier : String) (db : DB)
    (j : JoinedItem) : preservesDiff db (shipItemStep u onum carrier db j) := by
  cases hp : j.product with
  | none =>
    simp only [shipItemStep, hp]
    exact preservesDiff_refl db
  | some p =>
    simp only [shipItemStep, hp]
    refine preservesDiff_ledgerPairedUpdate db _ _ (fun _ => rfl) ?_
    intro q _
    simp
    omega

theorem foldl_shipItemStep_preservesDiff (u : Nat) (onum carrier : String)
    (items : List JoinedItem) (db : DB) :
    preservesDiff db (items.foldl (shipItemStep u onum carrier) db) := by
  induction items generalizing db with
  | nil => exact preservesDiff_refl db
  | cons j items ih =>
    exact preservesDiff_trans (shipItemStep_preservesDiff u onum carrier db j) (ih _)

theorem fulfillTx_snd (o : Order) (items : List JoinedItem) (req : PurchaseReq)
    (u : Nat) (sr : CarrierShipment) (db : DB) :
    (fulfillTx o items req u sr db).2
      = setOrderStatus
          (items.foldl (shipItemStep u o.orderNumber req.carrier)
            (fulfillTxInsert o req u sr db)) o.id .SHIPPED := rfl

/-- The whole fulfillment transaction keeps `currentStock - ledgerSum`
unchanged for every product: every decrement is paired with its ledger
entry, and the shipment/status writes touch neither field. -/
theorem fulfillTx_preservesDiff (o : Order) (items : List JoinedItem)
    (req : PurchaseReq) (u : Nat) (sr : CarrierShipment) (db : DB) :
    preservesDiff db (fulfillTx o items req u sr db).2 := by
  rw [fulfillTx_snd]
  refine preservesDiff_trans (b := fulfillTxInsert o req u sr db)
    (preservesDiff_of_eq rfl rfl)
    (preservesDiff_trans ?_ (preservesDiff_of_eq rfl rfl))
  exact foldl_shipItemStep_preservesDiff u o.orderNumber req.carrier items _

/-- A purchase request (any branch: rejection or committed transaction)
keeps `currentStock - ledgerSum` unchanged for every product. -/
theorem purchasePOST_preservesDiff (env : CarrierEnv) (req : PurchaseReq)
    (u : Nat) (db : DB) : preservesDiff db (purchasePOST env req u db).2 := by
  unfold purchasePOST
  cases h : purchasePhase1 env req db with
  | error r => exact preservesDiff_refl db
  | ok v =>
    obtain ⟨o, items, sr⟩ := v
    simpa using fulfillTx_preservesDiff o items req u sr db

theorem applyOp_preservesDiff (op : WmsOp) (db : DB) :
    preservesDiff db (applyOp op db) := by
  cases op with
  | receiveOp u pid q n => exact receiveStock_preservesDiff u pid q n db
  | adjustOp pid u ns notes => exact adjustStock_preservesDiff pid u ns notes db
  | fulfillOp env req u => exact purchasePOST_preservesDiff env req u db

theorem applyOps_preservesDiff (ops : List WmsOp) (db : DB) :
    preservesDiff db (applyOps ops db) := by
  induction ops generalizing db with
  | nil => exact preservesDiff_refl db
  | cons op ops ih =>
    exact preservesDiff_trans (applyOp_preservesDiff op db) (ih _)

/-- **C2** (reconciliation invariant): starting from a state whose ledger is
empty, after any sequence of receive-stock, adjust-stock and fulfillment
operations, every product's `currentStock` equals its initial stock plus
the sum of the signed quantities of all of its inventory ledger entries —
each operation that changes stock appends a matching ledger entry inside
the same transaction, and none changes stock without one. -/
theorem stock_equals_initial_plus_ledger (ops : List WmsOp) (db0 : DB)
    (h0 : db0.ledger = []) (pid : Nat) (pFinal : Product)
    (h : findProduct (applyOps ops db0) pid = some pFinal) :
    ∃ pInit, findProduct db0 pid = some pInit ∧
      pFinal.currentStock
        = pInit.currentStock + ledgerSum (applyOps ops db0).ledger pid := by
  obtain ⟨pInit, hInit, hdiff⟩ := applyOps_preservesDiff ops db0 pid pFinal h
  refine ⟨pInit, hInit, ?_⟩
  have hz : ledgerSum db0.ledger pid = 0 := by rw [h0]; rfl
  omega

/-- Concrete state for the reconciliation witness: one product with stock 5,
one pending order for 3 of it, empty ledger. -/
def wdb0C2 : DB :=
  { products := [{ id := 1, sku := "WIDGET-1", name := "Widget", weight := 1
                   currentStock := 5, lowStockThreshold := 10 }]
    orders := [{ id := 1, orderNumber := "#1001", status := .PENDING, shopifyOrderId := none }]
    orderItems := [{ id := 1, orderId := 1, productId := some 1, sku := "WIDGET-1"
                     name := "Widget", quantity := 3, price := 10 }]
    shipments := [], ledger := [], nextShipmentId := 1 }

/-- Environment for the witness fulfillment: UPS unconfigured (mock path). -/
def wenvC2 : CarrierEnv :=
  { upsConfigured := false, fedexConfigured := false
    upsCreate := .errShipment "unused", fedexCreate := .errShipment "unused"
    mockTimestamp := "T0", mockRandom := "R0", mockFedexNum := 0, mockCost := 10 }

/-- Witness operation sequence: receive 10, recount to 12, fulfill order 1. -/
def wOpsC2 : List WmsOp :=
  [ .receiveOp 7 (some 1) 10 none
  , .adjustOp 1 7 12 "cycle count"
  , .fulfillOp wenvC2 { orderId := 1, carrier := "UPS", serviceCode := "03"
                        serviceName := some "UPS Ground" } 7 ]

theorem stock_equals_initial_plus_ledger_witness :
    ∃ pInit, findProduct wdb0C2 1 = some pInit ∧
      (9 : Int) = pInit.currentStock + ledgerSum (applyOps wOpsC2 wdb0C2).ledger 1 :=
  stock_equals_initial_plus_ledger wOpsC2 wdb0C2 rfl 1
    { id := 1, sku := "WIDGET-1", name := "Widget", weight := 1
      currentStock := 9, lowStockThreshold := 10 } (by decide)

/-- JS `String.prototype.includes`: `pat` occurs contiguously in `s`. -/
def containsSubstr (s pat : String) : Bool :=
  (List.range (s.toList.length + 1)).any
    (fun i => ((s.toList.drop i).take pat.toList.length) == pat.toList)

theorem containsSubstr_of_infix {s pat : String}
    (h : pat.toList <:+: s.toList) : containsSubstr s pat = true := by
  obtain ⟨t, u, htu⟩ := h
  have hlen : t.length ≤ s.toList.length := by
    rw [← htu]
    simp
  apply List.any_eq_true.mpr
  refine ⟨t.length, ?_, ?_⟩
  · exact List.mem_range.mpr (by omega)
  · have hdrop : s.toList.drop t.length = pat.toList ++ u := by
      rw [← htu, List.append_assoc, List.drop_left]
    rw [hdrop, List.take_left]
    simp

instance {ε α : Type} [DecidableEq ε] [DecidableEq α] : DecidableEq (Except ε α) := by
  intro x y
  cases x with
  | ok a =>
    cases y with
    | ok b =>
      exact if h : a = b then .isTrue (by rw [h]) else .isFalse (by intro hc; cases hc; exact h rfl)
    | error b => exact .isFalse (by intro hc; cases hc)
  | error a =>
    cases y with
    | ok b => exact .isFalse (by intro hc; cases hc)
    | error b =>
      exact if h : a = b then .isTrue (by rw [h]) else .isFalse (by intro hc; cases hc; exact h rfl)

/-- Concrete state for the double-fulfillment run: one product with stock 5
and one `PENDING` order for 3 of it. -/
def c1db : DB :=
  { products := [{ id := 1, sku := "WIDGET-1", name := "Widget", weight := 1
                   currentStock := 5, lowStockThreshold := 10 }]
    orders := [{ id := 1, orderNumber := "#1001", status := .PENDING, shopifyOrderId := none }]
    orderItems := [{ id := 1, orderId := 1, productId := some 1, sku := "WIDGET-1"
                     name := "Widget", quantity := 3, price := 10 }]
    shipments := [], ledger := [], nextShipmentId := 1 }

def c1req : PurchaseReq :=
  { orderId := 1, carrier := "UPS", serviceCode := "03", serviceName := some "UPS Ground" }

def c1srA : CarrierShipment :=
  { trackingNumber := "1ZAAA111", labelBase64 := "TEFCRUxB", labelFormat := "PNG"
    cost := 12, currency := "USD" }

def c1srB : CarrierShipment :=
  { trackingNumber := "1ZBBB222", labelBase64 := "TEFCRUxC", labelFormat := "PNG"
    cost := 13, currency := "USD" }

def c1envA : CarrierEnv :=
  { upsConfigured := true, fedexConfigured := false
    upsCreate := .okShipment c1srA, fedexCreate := .errShipment "unused"
    mockTimestamp := "T0", mockRandom := "R0", mockFedexNum := 0, mockCost := 10 }

def c1envB : CarrierEnv :=
  { upsConfigured := true, fedexConfigured := false
    upsCreate := .okShipment c1srB, fedexCreate := .errShipment "unused"
    mockTimestamp := "T0", mockRandom := "R0", mockFedexNum := 0, mockCost := 10 }

/-- The order/items snapshot both concurrent requests read from `c1db`. -/
def c1order : Order :=
  { id := 1, orderNumber := "#1001", status := .PENDING, shopifyOrderId := none }

def c1items : List JoinedItem :=
  [ { item := { id := 1, orderId := 1, productId := some 1, sku := "WIDGET-1"
                name := "Widget", quantity := 3, price := 10 }
      product := some { id := 1, sku := "WIDGET-1", name := "Widget", weight := 1
                        currentStock := 5, lowStockThreshold := 10 } } ]

/-- The state after the first request's transaction commits. -/
def c1db1 : DB := (fulfillTx c1order c1items c1req 7 c1srA c1db).2

/-- **C1**: the purchase route checks the order's status only in its
pre-transaction phase; the `$transaction` callback re-reads nothing. Two
concurrent fulfillment attempts that both validate against the initial
`PENDING` state therefore both commit: when the second attempt's
transaction runs, the order's status is already `SHIPPED`, yet it still
creates a second `Shipment` row, decrements stock again (to −1) and
appends a second `SHIPPED` ledger entry — contradicting the claimed
at-most-one-successful-fulfillment guarantee. -/
theorem purchase_status_check_outside_transaction_bug :
    purchasePhase1 c1envA c1req c1db = .ok (c1order, c1items, c1srA)
    ∧ purchasePhase1 c1envB c1req c1db = .ok (c1order, c1items, c1srB)
    ∧ statusOf c1db1 1 = some .SHIPPED
    ∧ (fulfillTx c1order c1items c1req 7 c1srB c1db1).2.shipments.length = 2
    ∧ stockOf (fulfillTx c1order c1items c1req 7 c1srB c1db1).2 1 = some (-1)
    ∧ ledgerSum (fulfillTx c1order c1items c1req 7 c1srB c1db1).2.ledger 1 = -6 := by
  decide

/-- Concrete state for the hold-on-shipped run: one `SHIPPED` order. -/
def c7db : DB :=
  { products := [], orders := [{ id := 1, orderNumber := "#2001", status := .SHIPPED
                                 shopifyOrderId := none }]
    orderItems := [], shipments := [], ledger := [], nextShipmentId := 1 }

/-- **C7**: `putOrderOnHold` performs an unconditional status update: on an
order whose status is `SHIPPED` it still succeeds and sets the status to
`ON_HOLD`, although the state machine forbids `Shipped → OnHold` (the
sibling `cancelOrder` action does implement the corresponding guard). -/
theorem putOrderOnHold_on_shipped_order_bug :
    statusOf c7db 1 = some .SHIPPED
    ∧ (putOrderOnHold c7db 1).1 = true
    ∧ statusOf (putOrderOnHold c7db 1).2 1 = some .ON_HOLD
    ∧ cancelOrder c7db 1 = (.cannotCancelShipped, c7db) := by
  decide

/-- A fixed 44-character base64-shaped digest standing for the HMAC-SHA256
output; the HMAC primitive itself is Node library code. -/
def c9digest : String := "0123456789abcdefghijklmnopqrstuvwxyzABCDEF+="

def c9env : WebhookEnv :=
  { secret := some "shhh", hmacBase64 := fun _ _ => c9digest
    processOrder := fun _ db => { db with nextShipmentId := db.nextShipmentId + 1 } }

def c9db : DB :=
  { products := [], orders := [], orderItems := [], shipments := [], ledger := []
    nextShipmentId := 1 }

/-- A 44-byte signature that differs from the digest. -/
def c9wrong44 : String := "9876543210zyxwvutsrqponmlkjihgfedcbaZYXWVU/+"

/-- **C9**: a signature header whose byte length differs from the computed
digest makes `crypto.timingSafeEqual` throw; the route's catch-all then
answers HTTP 200 (`received: true` plus the error message) instead of the
required 401 Unauthorized — though no order data is processed. An
equal-length mismatch is rejected with 401 as claimed. -/
theorem webhook_short_signature_answered_200_bug :
    (some "deadbeef" : Option String) ≠ some (c9env.hmacBase64 "shhh" "rawbody")
    ∧ webhookPOST c9env "rawbody" (some "deadbeef") c9db
        = (.received (some "Input buffers must have the same byte length"), c9db)
    ∧ webhookStatus (webhookPOST c9env "rawbody" (some "deadbeef") c9db).1 = 200
    ∧ webhookPOST c9env "rawbody" (some c9wrong44) c9db = (.invalidSignature, c9db)
    ∧ webhookStatus (.invalidSignature : WebhookResp) = 401 := by
  decide

theorem containsSubstr_of_toList_eq (s a b c : String)
    (h : s.toList = a.toList ++ (b.toList ++ c.toList)) : containsSubstr s b = true :=
  containsSubstr_of_infix ⟨a.toList, c.toList, by rw [h]; exact List.append_assoc _ _ _⟩

theorem length_filterMap_eq_length_filter {α β : Type} (f : α → Option β) (l : List α) :
    (l.filterMap f).length = (l.filter (fun a => (f a).isSome)).length := by
  induction l with
  | nil => rfl
  | cons a l ih =>
    cases h : f a with
    | none => simp [List.filterMap_cons, List.filter_cons, h, ih]
    | some b => simp [List.filterMap_cons, List.filter_cons, h, ih]

/-- Every stock-issue message of the purchase route names the offending
item's display name and, when the item has a linked product, its required
and available quantities. -/
theorem stockIssueMsg_contains (j : JoinedItem) (m : String)
    (h : stockIssueMsg j = some m) :
    containsSubstr m j.item.name = true
    ∧ ∀ p, j.product = some p →
        containsSubstr m (toString j.item.quantity) = true
        ∧ containsSubstr m (toString p.currentStock) = true := by
  cases hp : j.product with
  | none =>
    simp only [stockIssueMsg, hp] at h
    obtain rfl := Option.some.inj h.symm
    refine ⟨?_, ?_⟩
    · exact containsSubstr_of_toList_eq _ "" j.item.name ": Product not in system" (by simp)
    · intro p hc
      cases hc
  | some p0 =>
    simp only [stockIssueMsg, hp] at h
    by_cases hlt : p0.currentStock < (j.item.quantity : Int)
    · rw [if_pos hlt] at h
      obtain rfl := Option.some.inj h.symm
      refine ⟨?_, ?_⟩
      · exact containsSubstr_of_toList_eq _ "" j.item.name
          (": Need " ++ toString j.item.quantity ++ ", only "
            ++ toString p0.currentStock ++ " in stock") (by simp)
      · intro p hc
        obtain rfl := Option.some.inj hc
        constructor
        · exact containsSubstr_of_toList_eq _ (j.item.name ++ ": Need ")
            (toString j.item.quantity)
            (", only " ++ toString p0.currentStock ++ " in stock") (by simp)
        · exact containsSubstr_of_toList_eq _
            (j.item.name ++ ": Need " ++ toString j.item.quantity ++ ", only ")
            (toString p0.currentStock) " in stock" (by simp)
    · rw [if_neg hlt] at h
      cases h

/-- Every stock-issue message of the dashboard `fulfillOrder` action names
the offending item's SKU. -/
theorem fulfillOrderStockMsg_contains_sku (j : JoinedItem) (m : String)
    (h : fulfillOrderStockMsg j = some m) : containsSubstr m j.item.sku = true := by
  cases hp : j.product with
  | none =>
    simp only [fulfillOrderStockMsg, hp] at h
    obtain rfl := Option.some.inj h.symm
    exact containsSubstr_of_toList_eq _ (j.item.name ++ " (") j.item.sku
      "): Product not in system" (by simp)
  | some p0 =>
    simp only [fulfillOrderStockMsg, hp] at h
    by_cases hlt : p0.currentStock < (j.item.quantity : Int)
    · rw [if_pos hlt] at h
      obtain rfl := Option.some.inj h.symm
      exact containsSubstr_of_toList_eq _ (j.item.name ++ " (") j.item.sku
        ("): Need " ++ toString j.item.quantity ++ ", only "
          ++ toString p0.currentStock ++ " in stock") (by simp)
    · rw [if_neg hlt] at h
      cases h

/-- Concrete state refuting the SKU part of the claim: one `PENDING` order
whose only item (SKU `WIDGET-1`, display name `Widget`) has no linked
product. -/
def c3db : DB :=
  { products := [], orders := [{ id := 1, orderNumber := "#3001", status := .PENDING
                                 shopifyOrderId := none }]
    orderItems := [{ id := 1, orderId := 1, productId := none, sku := "WIDGET-1"
                     name := "Widget", quantity := 2, price := 5 }]
    shipments := [], ledger := [], nextShipmentId := 1 }

def c3req : PurchaseReq :=
  { orderId := 1, carrier := "UPS", serviceCode := "03", serviceName := none }

def c3env : CarrierEnv :=
  { upsConfigured := false, fedexConfigured := false
    upsCreate := .errShipment "unused", fedexCreate := .errShipment "unused"
    mockTimestamp := "T0", mockRandom := "R0", mockFedexNum := 0, mockCost := 10 }

/-- **C3** (counterexample): the purchase route's stock-issue detail names
the offending item by its display name, not its SKU — for an item with SKU
`WIDGET-1` and name `Widget` the single detail string is
`Widget: Product not in system`, which does not contain the SKU. -/
theorem purchase_stock_issue_message_lacks_sku :
    purchasePOST c3env c3req 7 c3db
      = (.stockIssuesResp ["Widget: Product not in system"], c3db)
    ∧ containsSubstr "Widget: Product not in system" "WIDGET-1" = false := by
  decide

/-- **C3** (amended): for every order in a fulfillable status with at least
one offending item, the purchase route returns one aggregated stock-issue
error listing one message per offending item — never only the first — and
mutates nothing; each message names the item's display name plus, when a
product is linked, the required and available quantities (the dashboard
`fulfillOrder` variant of the message additionally names the SKU, which
the purchase route's does not). -/
theorem insufficient_stock_aggregates_all_items
    (env : CarrierEnv) (req : PurchaseReq) (uid : Nat) (db : DB)
    (o : Order) (items : List JoinedItem)
    (ho : orderSnapshot db req.orderId = some (o, items))
    (h1 : o.status ≠ .SHIPPED) (h2 : o.status ≠ .CANCELLED)
    (h3 : stockIssues items ≠ []) :
    purchasePOST env req uid db = (.stockIssuesResp (stockIssues items), db)
    ∧ (stockIssues items).length
        = (items.filter (fun j => (stockIssueMsg j).isSome)).length
    ∧ (∀ j ∈ items, ∀ m, stockIssueMsg j = some m →
        containsSubstr m j.item.name = true
        ∧ ∀ p, j.product = some p →
            containsSubstr m (toString j.item.quantity) = true
            ∧ containsSubstr m (toString p.currentStock) = true)
    ∧ (∀ j ∈ items, ∀ m, fulfillOrderStockMsg j = some m →
        containsSubstr m j.item.sku = true) := by
  refine ⟨?_, ?_, ?_, ?_⟩
  · have hph : purchasePhase1 env req db = .error (.stockIssuesResp (stockIssues items)) := by
      simp only [purchasePhase1, ho]
      rw [if_neg h1, if_neg h2, if_pos h3]
    simp only [purchasePOST, hph]
  · simpa [stockIssues] using length_filterMap_eq_length_filter stockIssueMsg items
  · intro j _ m hm
    exact stockIssueMsg_contains j m hm
  · intro j _ m hm
    exact fulfillOrderStockMsg_contains_sku j m hm

/-- **C4**: when the chosen carrier is configured and its external
label-purchase call fails, the purchase route returns the carrier's error
and the database state is returned unchanged — no shipment row, no stock
decrement, no ledger entry, no status change. -/
theorem carrier_failure_mutates_nothing
    (env : CarrierEnv) (req : PurchaseReq) (uid : Nat) (db : DB)
    (o : Order) (items : List JoinedItem) (e : String)
    (ho : orderSnapshot db req.orderId = some (o, items))
    (h1 : o.status ≠ .SHIPPED) (h2 : o.status ≠ .CANCELLED)
    (h3 : stockIssues items = [])
    (hc : (req.carrier = "UPS" ∧ env.upsConfigured = true
            ∧ env.upsCreate = .errShipment e)
        ∨ (req.carrier = "FedEx" ∧ env.fedexConfigured = true
            ∧ env.fedexCreate = .errShipment e)) :
    purchasePOST env req uid db = (.carrierErr e, db) := by
  have hph : purchasePhase1 env req db = .error (.carrierErr e) := by
    simp only [purchasePhase1, ho]
    rw [if_neg h1, if_neg h2]
    rw [if_neg (show ¬(stockIssues items ≠ []) from by simp [h3])]
    rcases hc with ⟨hcar, hconf, hcall⟩ | ⟨hcar, hconf, hcall⟩
    · rw [hcar]
      simp [hconf, hcall]
    · rw [hcar]
      simp [hconf, hcall]
  simp only [purchasePOST, hph]

def c4wenv : CarrierEnv :=
  { upsConfigured := true, fedexConfigured := false
    upsCreate := .errShipment "UPS API error", fedexCreate := .errShipment "unused"
    mockTimestamp := "T0", mockRandom := "R0", mockFedexNum := 0, mockCost := 10 }

theorem carrier_failure_mutates_nothing_witness :
    purchasePOST c4wenv c1req 7 c1db = (.carrierErr "UPS API error", c1db) :=
  carrier_failure_mutates_nothing c4wenv c1req 7 c1db c1order c1items "UPS API error"
    (by decide) (by decide) (by decide) (by decide) (Or.inl ⟨rfl, rfl, rfl⟩)

/-- The `SHIPPED` ledger entries the transaction's item loop appends: one
per order item with a linked product. -/
def shippedEntriesFor (items : List JoinedItem) (uid : Nat)
    (onum carrier : String) : List InventoryTransaction :=
  items.filterMap (fun j => j.product.map (fun p =>
    { productId := p.id, quantity := -(j.item.quantity : Int), type := .SHIPPED
      notes := some ("Shipped for order " ++ onum ++ " via " ++ carrier)
      userId := uid }))

theorem foldl_shipItemStep_ledger (u : Nat) (onum carrier : String)
    (items : List JoinedItem) (db : DB) :
    (items.foldl (shipItemStep u onum carrier) db).ledger
      = db.ledger ++ shippedEntriesFor items u onum carrier := by
  induction items generalizing db with
  | nil => simp [shippedEntriesFor]
  | cons j items ih =>
    rw [List.foldl_cons, ih]
    cases hp : j.product with
    | none =>
      have hstep : shipItemStep u onum carrier db j = db := by
        simp [shipItemStep, hp]
      rw [hstep]
      simp [shippedEntriesFor, List.filterMap_cons, hp]
    | some p =>
      have hled : (shipItemStep u onum carrier db j).ledger
          = db.ledger ++ [{ productId := p.id, quantity := -(j.item.quantity : Int)
                            type := .SHIPPED
                            notes := some ("Shipped for order " ++ onum ++ " via " ++ carrier)
                            userId := u }] := by
        simp [shipItemStep, hp, ledgerPairedUpdate, updateProduct]
      rw [hled]
      simp [shippedEntriesFor, List.filterMap_cons, hp]

theorem foldl_shipItemStep_orders (u : Nat) (onum carrier : String)
    (items : List JoinedItem) (db : DB) :
    (items.foldl (shipItemStep u onum carrier) db).orders = db.orders := by
  induction items generalizing db with
  | nil => rfl
  | cons j items ih =>
    rw [List.foldl_cons, ih]
    cases hp : j.product with
    | none => simp [shipItemStep, hp]
    | some p => simp [shipItemStep, hp, ledgerPairedUpdate, updateProduct]

theorem foldl_shipItemStep_shipments (u : Nat) (onum carrier : String)
    (items : List JoinedItem) (db : DB) :
    (items.foldl (shipItemStep u onum carrier) db).shipments = db.shipments := by
  induction items generalizing db with
  | nil => rfl
  | cons j items ih =>
    rw [List.foldl_cons, ih]
    cases hp : j.product with
    | none => simp [shipItemStep, hp]
    | some p => simp [shipItemStep, hp, ledgerPairedUpdate, updateProduct]

/-- `find?` by id commutes with an id-preserving keyed map update (orders). -/
theorem find_map_keyed_update_order (l : List Order) (oid0 : Nat) (f : Order → Order)
    (hf : ∀ o, (f o).id = o.id) (oid : Nat) :
    (l.map (fun o => if o.id = oid0 then f o else o)).find? (fun o => o.id == oid)
      = (l.find? (fun o => o.id == oid)).map (fun o => if o.id = oid0 then f o else o) := by
  induction l with
  | nil => rfl
  | cons a l ih =>
    have hid : ((if a.id = oid0 then f a else a).id == oid) = (a.id == oid) := by
      split
      · rw [hf]
      · rfl
    simp only [List.map_cons, List.find?, hid]
    cases h : (a.id == oid) with
    | true => rfl
    | false => exact ih

theorem orderSnapshot_findOrder (db : DB) (oid : Nat) (o : Order)
    (items : List JoinedItem) (h : orderSnapshot db oid = some (o, items)) :
    findOrder db oid = some o := by
  unfold orderSnapshot at h
  obtain ⟨o2, ho2, heq⟩ := Option.map_eq_some'.mp h
  simp only [Prod.mk.injEq] at heq
  obtain ⟨h1, -⟩ := heq
  rw [← h1]
  exact ho2

theorem setOrderStatus_orders_eq (db : DB) (oid : Nat) (st : OrderStatus) :
    (setOrderStatus db oid st).orders
      = db.orders.map (fun x => if x.id = oid then { x with status := st } else x) := rfl

theorem setOrderStatus_shipments_eq (db : DB) (oid : Nat) (st : OrderStatus) :
    (setOrderStatus db oid st).shipments = db.shipments := rfl

theorem setOrderStatus_ledger_eq (db : DB) (oid : Nat) (st : OrderStatus) :
    (setOrderStatus db oid st).ledger = db.ledger := rfl

theorem fulfillTxInsert_orders_eq (o : Order) (req : PurchaseReq) (u : Nat)
    (sr : CarrierShipment) (db : DB) :
    (fulfillTxInsert o req u sr db).orders = db.orders := rfl

theorem fulfillTxInsert_ledger_eq (o : Order) (req : PurchaseReq) (u : Nat)
    (sr : CarrierShipment) (db : DB) :
    (fulfillTxInsert o req u sr db).ledger = db.ledger := rfl

theorem fulfillTxInsert_shipments_eq (o : Order) (req : PurchaseReq) (u : Nat)
    (sr : CarrierShipment) (db : DB) :
    (fulfillTxInsert o req u sr db).shipments
      = (db.shipments ++ [fulfillShipmentRow o req u sr db]).map
          (fun s => if s.id = db.nextShipmentId then
            { s with labelUrl := some ("/api/shipping/label/"
                ++ toString db.nextShipmentId) } else s) := rfl

theorem statusOf_setOrderStatus_found (db : DB) (o : Order) (oid : Nat)
    (st : OrderStatus) (hfo : findOrder db oid = some o) :
    statusOf (setOrderStatus db o.id st) oid = some st := by
  have hk := find_map_keyed_update_order db.orders o.id
    (fun x => { x with status := st }) (fun _ => rfl) oid
  unfold findOrder at hfo
  unfold statusOf findOrder
  rw [setOrderStatus_orders_eq, hk, hfo]
  simp

/-- **C10** (implicit claim): a fulfillment request on an otherwise valid
order whose chosen carrier is not configured does not fail: the route
substitutes `generateMockShipment` (fixed placeholder 1x1 PNG label,
generated tracking number and cost) and commits the very same transaction
as a live purchase — one new `Shipment` row persisting the mock label, a
`SHIPPED` ledger entry and matching stock decrement per linked item, and
the order's status set to `SHIPPED`. -/
theorem unconfigured_carrier_commits_mock_shipment
    (env : CarrierEnv) (req : PurchaseReq) (uid : Nat) (db : DB)
    (o : Order) (items : List JoinedItem)
    (ho : orderSnapshot db req.orderId = some (o, items))
    (h1 : o.status ≠ .SHIPPED) (h2 : o.status ≠ .CANCELLED)
    (h3 : stockIssues items = [])
    (hc : (req.carrier = "UPS" ∧ env.upsConfigured = false)
        ∨ (req.carrier = "FedEx" ∧ env.fedexConfigured = false)) :
    purchasePOST env req uid db
      = (.purchased db.nextShipmentId
          (generateMockShipment req.carrier req.serviceCode env).trackingNumber,
         (fulfillTx o items req uid
           (generateMockShipment req.carrier req.serviceCode env) db).2)
    ∧ (generateMockShipment req.carrier req.serviceCode env).labelBase64 = mockLabelBase64
    ∧ (generateMockShipment req.carrier req.serviceCode env).labelFormat = "PNG"
    ∧ statusOf (fulfillTx o items req uid
        (generateMockShipment req.carrier req.serviceCode env) db).2 req.orderId
        = some .SHIPPED
    ∧ (fulfillTx o items req uid
        (generateMockShipment req.carrier req.serviceCode env) db).2.shipments.map
          (fun s => s.labelData)
        = db.shipments.map (fun s => s.labelData) ++ [some mockLabelBase64]
    ∧ (fulfillTx o items req uid
        (generateMockShipment req.carrier req.serviceCode env) db).2.ledger
        = db.ledger ++ shippedEntriesFor items uid o.orderNumber req.carrier
    ∧ preservesDiff db (fulfillTx o items req uid
        (generateMockShipment req.carrier req.serviceCode env) db).2 := by
  have hfo : findOrder db req.orderId = some o := orderSnapshot_findOrder db req.orderId o items ho
  have hph : purchasePhase1 env req db
      = .ok (o, items, generateMockShipment req.carrier req.serviceCode env) := by
    simp only [purchasePhase1, ho]
    rw [if_neg h1, if_neg h2]
    rw [if_neg (show ¬(stockIssues items ≠ []) from by simp [h3])]
    rcases hc with ⟨hcar, hconf⟩ | ⟨hcar, hconf⟩
    · rw [hcar]
      simp [hconf]
    · rw [hcar]
      simp [hconf]
  refine ⟨?_, rfl, rfl, ?_, ?_, ?_, ?_⟩
  · simp only [purchasePOST, hph]
    rfl
  · have hfo2 : findOrder (items.foldl
        (shipItemStep uid o.orderNumber req.carrier)
        (fulfillTxInsert o req uid (generateMockShipment req.carrier req.serviceCode env) db))
        req.orderId = some o := by
      have he : findOrder (items.foldl
          (shipItemStep uid o.orderNumber req.carrier)
          (fulfillTxInsert o req uid (generateMockShipment req.carrier req.serviceCode env) db))
          req.orderId = findOrder db req.orderId := by
        unfold findOrder
        rw [foldl_shipItemStep_orders, fulfillTxInsert_orders_eq]
      exact he.trans hfo
    exact statusOf_setOrderStatus_found _ o req.orderId .SHIPPED hfo2
  · have hs : (fulfillTx o items req uid
        (generateMockShipment req.carrier req.serviceCode env) db).2.shipments
        = (db.shipments
            ++ [fulfillShipmentRow o req uid
                 (generateMockShipment req.carrier req.serviceCode env) db]).map
            (fun s => if s.id = db.nextShipmentId
              then { s with labelUrl := some ("/api/shipping/label/"
                      ++ toString db.nextShipmentId) } else s) := by
      rw [fulfillTx_snd, setOrderStatus_shipments_eq, foldl_shipItemStep_shipments,
        fulfillTxInsert_shipments_eq]
    rw [hs, List.map_map]
    have hc2 : ∀ s : Shipment,
        ((fun s : Shipment => s.labelData) ∘ (fun s => if s.id = db.nextShipmentId
          then { s with labelUrl := some ("/api/shipping/label/"
                  ++ toString db.nextShipmentId) } else s)) s = s.labelData := by
      intro s
      by_cases h : s.id = db.nextShipmentId <;> simp [h]
    rw [List.map_congr_left (fun s _ => hc2 s)]
    simp [fulfillShipmentRow, generateMockShipment]
  · rw [fulfillTx_snd, setOrderStatus_ledger_eq, foldl_shipItemStep_ledger,
      fulfillTxInsert_ledger_eq]
  · exact fulfillTx_preservesDiff o items req uid
      (generateMockShipment req.carrier req.serviceCode env) db

/-- Witness state for the aggregation theorem: item `SKU-A` is short by one
(needs 2, stock 1) and item `SKU-B` has no linked product. -/
def c3wdb : DB :=
  { products := [{ id := 1, sku := "SKU-A", name := "Alpha", weight := 1
                   currentStock := 1, lowStockThreshold := 10 }]
    orders := [{ id := 1, orderNumber := "#3002", status := .PROCESSING
                 shopifyOrderId := none }]
    orderItems :=
      [ { id := 1, orderId := 1, productId := some 1, sku := "SKU-A"
          name := "Alpha", quantity := 2, price := 5 }
      , { id := 2, orderId := 1, productId := none, sku := "SKU-B"
          name := "Beta", quantity := 1, price := 5 } ]
    shipments := [], ledger := [], nextShipmentId := 1 }

def c3worder : Order :=
  { id := 1, orderNumber := "#3002", status := .PROCESSING, shopifyOrderId := none }

def c3witems : List JoinedItem :=
  [ { item := { id := 1, orderId := 1, productId := some 1, sku := "SKU-A"
                name := "Alpha", quantity := 2, price := 5 }
      product := some { id := 1, sku := "SKU-A", name := "Alpha", weight := 1
                        currentStock := 1, lowStockThreshold := 10 } }
  , { item := { id := 2, orderId := 1, productId := none, sku := "SKU-B"
                name := "Beta", quantity := 1, price := 5 }
      product := none } ]

theorem insufficient_stock_aggregates_all_items_witness :
    purchasePOST c3env c3req 7 c3wdb = (.stockIssuesResp (stockIssues c3witems), c3wdb)
    ∧ (stockIssues c3witems).length
        = (c3witems.filter (fun j => (stockIssueMsg j).isSome)).length
    ∧ (∀ j ∈ c3witems, ∀ m, stockIssueMsg j = some m →
        containsSubstr m j.item.name = true
        ∧ ∀ p, j.product = some p →
            containsSubstr m (toString j.item.quantity) = true
            ∧ containsSubstr m (toString p.currentStock) = true)
    ∧ (∀ j ∈ c3witems, ∀ m, fulfillOrderStockMsg j = some m →
        containsSubstr m j.item.sku = true) :=
  insufficient_stock_aggregates_all_items c3env c3req 7 c3wdb c3worder c3witems
    (by decide) (by decide) (by decide) (by decide)

theorem unconfigured_carrier_commits_mock_shipment_witness :
    purchasePOST c3env c1req 7 c1db
      = (.purchased c1db.nextShipmentId
          (generateMockShipment c1req.carrier c1req.serviceCode c3env).trackingNumber,
         (fulfillTx c1order c1items c1req 7
           (generateMockShipment c1req.carrier c1req.serviceCode c3env) c1db).2)
    ∧ (generateMockShipment c1req.carrier c1req.serviceCode c3env).labelBase64
        = mockLabelBase64
    ∧ (generateMockShipment c1req.carrier c1req.serviceCode c3env).labelFormat = "PNG"
    ∧ statusOf (fulfillTx c1order c1items c1req 7
        (generateMockShipment c1req.carrier c1req.serviceCode c3env) c1db).2 c1req.orderId
        = some .SHIPPED
    ∧ (fulfillTx c1order c1items c1req 7
        (generateMockShipment c1req.carrier c1req.serviceCode c3env) c1db).2.shipments.map
          (fun s => s.labelData)
        = c1db.shipments.map (fun s => s.labelData) ++ [some mockLabelBase64]
    ∧ (fulfillTx c1order c1items c1req 7
        (generateMockShipment c1req.carrier c1req.serviceCode c3env) c1db).2.ledger
        = c1db.ledger ++ shippedEntriesFor c1items 7 c1order.orderNumber c1req.carrier
    ∧ preservesDiff c1db (fulfillTx c1order c1items c1req 7
        (generateMockShipment c1req.carrier c1req.serviceCode c3env) c1db).2 :=
  unconfigured_carrier_commits_mock_shipment c3env c1req 7 c1db c1order c1items
    (by decide) (by decide) (by decide) (by decide) (Or.inl ⟨rfl, rfl⟩)

/-- One advisory error string exactly when the settled carrier call counts
as failing/unconfigured. -/
theorem carrierAdvisories_length (nm : String) (oc : RateCall) :
    (carrierAdvisories nm oc).length = (if rateCallFailed oc then 1 else 0) := by
  cases oc with
  | fulfilledCall rates err => cases err <;> simp [carrierAdvisories, rateCallFailed]
  | rejectedCall r => simp [carrierAdvisories, rateCallFailed]

/-- **C5**: when the order exists, the merged offer list is non-empty and
at least one carrier failed or is unconfigured, `GetRates` answers success
with the merged offers sorted ascending by price and the advisory errors
attached — exactly one advisory per failing/unconfigured carrier, none for
a succeeding one — and not the hard failure. -/
theorem getRates_partial_failure_success
    (env : RatesEnv) (oid : Nat) (db : DB) (o : Order) (items : List JoinedItem)
    (ho : orderSnapshot db oid = some (o, items))
    (hne : mergedRates env ≠ [])
    (hfail : mergedAdvisories env ≠ []) :
    getRates env oid db
      = .successRates (sortByPrice (mergedRates env)) (some (mergedAdvisories env))
    ∧ List.Sorted rateLE (sortByPrice (mergedRates env))
    ∧ (sortByPrice (mergedRates env)).Perm (mergedRates env)
    ∧ (carrierAdvisories "UPS" (upsOutcome env)).length
        = (if rateCallFailed (upsOutcome env) then 1 else 0)
    ∧ (carrierAdvisories "FedEx" (fedexOutcome env)).length
        = (if rateCallFailed (fedexOutcome env) then 1 else 0) := by
  refine ⟨?_, ?_, ?_, ?_, ?_⟩
  · simp only [getRates, ho]
    rw [if_neg hne, if_neg hfail]
  · exact List.sorted_insertionSort rateLE (mergedRates env)
  · exact List.perm_insertionSort rateLE (mergedRates env)
  · exact carrierAdvisories_length "UPS" (upsOutcome env)
  · exact carrierAdvisories_length "FedEx" (fedexOutcome env)

/-- Witness environment: UPS configured and succeeding with two offers,
FedEx configured but its promise rejected. -/
def c5wenv : RatesEnv :=
  { upsConfigured := true, fedexConfigured := true
    upsCall := .fulfilledCall
      [ { serviceCode := "03", serviceName := "UPS Ground", totalCharge := 18
          currency := "USD", transitDays := some 5, deliveryDate := none }
      , { serviceCode := "02", serviceName := "UPS 2nd Day Air", totalCharge := 31
          currency := "USD", transitDays := none, deliveryDate := some "Fri, Oct 17" } ]
      none
    fedexCall := .rejectedCall "connection timeout"
    fmtBusinessDays := fun d => "in " ++ toString d ++ " business days" }

theorem getRates_partial_failure_success_witness :
    getRates c5wenv 1 c1db
      = .successRates (sortByPrice (mergedRates c5wenv)) (some (mergedAdvisories c5wenv))
    ∧ List.Sorted rateLE (sortByPrice (mergedRates c5wenv))
    ∧ (sortByPrice (mergedRates c5wenv)).Perm (mergedRates c5wenv)
    ∧ (carrierAdvisories "UPS" (upsOutcome c5wenv)).length
        = (if rateCallFailed (upsOutcome c5wenv) then 1 else 0)
    ∧ (carrierAdvisories "FedEx" (fedexOutcome c5wenv)).length
        = (if rateCallFailed (fedexOutcome c5wenv) then 1 else 0) :=
  getRates_partial_failure_success c5wenv 1 c1db c1order c1items
    (by decide) (by decide) (by decide)

theorem mergedRates_empty_of_unconfigured (env : RatesEnv)
    (hu : env.upsConfigured = false) (hf : env.fedexConfigured = false) :
    mergedRates env = [] := by
  simp [mergedRates, upsOutcome, fedexOutcome, hu, hf, carrierRates]

theorem generateMockRates_length (w : Rat) (fmt : Nat → String) :
    (generateMockRates w fmt).length = 4 := by
  simp only [generateMockRates, sortByPrice, List.length_insertionSort]
  rfl

/-- **C6**: `GetRates` answers the non-live placeholder table exactly when
zero carriers are configured, and the hard failure (with every accumulated
advisory as detail) exactly when the merged list is empty and at least one
carrier is configured; the placeholder, when returned, is non-empty (4
offers), and it is never returned while any carrier is configured. -/
theorem getRates_mock_iff_no_carrier
    (env : RatesEnv) (oid : Nat) (db : DB) (o : Order) (items : List JoinedItem)
    (ho : orderSnapshot db oid = some (o, items)) :
    isMockResp (getRates env oid db) = (!env.upsConfigured && !env.fedexConfigured)
    ∧ isFailureResp (getRates env oid db)
        = (decide (mergedRates env = []) && (env.upsConfigured || env.fedexConfigured))
    ∧ (isFailureResp (getRates env oid db) = true →
        getRates env oid db = .failureRates (mergedAdvisories env))
    ∧ (isMockResp (getRates env oid db) = true →
        getRates env oid db
          = .mockSuccess (generateMockRates (totalWeightOf items) env.fmtBusinessDays)
              ["No carriers configured - using mock data"]
        ∧ (respRates (getRates env oid db)).length = 4) := by
  have hmock : env.upsConfigured = false → env.fedexConfigured = false →
      getRates env oid db
        = .mockSuccess (generateMockRates (totalWeightOf items) env.fmtBusinessDays)
            ["No carriers configured - using mock data"] := by
    intro hu hf
    have hm := mergedRates_empty_of_unconfigured env hu hf
    simp only [getRates, ho]
    rw [if_pos hm, if_pos ⟨by simp [hu], by simp [hf]⟩]
  have hfailure : mergedRates env = [] →
      (env.upsConfigured = true ∨ env.fedexConfigured = true) →
      getRates env oid db = .failureRates (mergedAdvisories env) := by
    intro hm hcfg
    simp only [getRates, ho]
    rw [if_pos hm, if_neg ?_]
    intro hand
    rcases hcfg with h1 | h1
    · exact hand.1 (by simp [h1])
    · exact hand.2 (by simp [h1])
  have hsuccess : mergedRates env ≠ [] →
      getRates env oid db
        = .successRates (sortByPrice (mergedRates env))
            (if mergedAdvisories env = [] then none else some (mergedAdvisories env)) := by
    intro hm
    simp only [getRates, ho]
    rw [if_neg hm]
  refine ⟨?_, ?_, ?_, ?_⟩
  · cases hu : env.upsConfigured with
    | false =>
      cases hf : env.fedexConfigured with
      | false => rw [hmock hu hf]; rfl
      | true =>
        by_cases hm : mergedRates env = []
        · rw [hfailure hm (Or.inr hf)]
          simp [isMockResp]
        · rw [hsuccess hm]
          simp [isMockResp]
    | true =>
      by_cases hm : mergedRates env = []
      · rw [hfailure hm (Or.inl hu)]
        simp [isMockResp]
      · rw [hsuccess hm]
        simp [isMockResp]
  · cases hu : env.upsConfigured with
    | false =>
      cases hf : env.fedexConfigured with
      | false =>
        rw [hmock hu hf]
        simp [isFailureResp]
      | true =>
        by_cases hm : mergedRates env = []
        · rw [hfailure hm (Or.inr hf)]
          simp [isFailureResp, hm]
        · rw [hsuccess hm]
          simp [isFailureResp, hm]
    | true =>
      by_cases hm : mergedRates env = []
      · rw [hfailure hm (Or.inl hu)]
        simp [isFailureResp, hm]
      · rw [hsuccess hm]
        simp [isFailureResp, hm]
  · intro hx
    by_cases hm : mergedRates env = []
    · cases hu : env.upsConfigured with
      | false =>
        cases hf : env.fedexConfigured with
        | false =>
          rw [hmock hu hf] at hx
          simp [isFailureResp] at hx
        | true => exact hfailure hm (Or.inr hf)
      | true => exact hfailure hm (Or.inl hu)
    · rw [hsuccess hm] at hx
      simp [isFailureResp] at hx
  · intro hx
    cases hu : env.upsConfigured with
    | false =>
      cases hf : env.fedexConfigured with
      | false =>
        have he := hmock hu hf
        refine ⟨he, ?_⟩
        rw [he]
        simp [respRates, generateMockRates_length]
      | true =>
        exfalso
        by_cases hm : mergedRates env = []
        · rw [hfailure hm (Or.inr hf)] at hx
          simp [isMockResp] at hx
        · rw [hsuccess hm] at hx
          simp [isMockResp] at hx
    | true =>
      exfalso
      by_cases hm : mergedRates env = []
      · rw [hfailure hm (Or.inl hu)] at hx
        simp [isMockResp] at hx
      · rw [hsuccess hm] at hx
        simp [isMockResp] at hx

/-- Witness environment for the placeholder path: zero carriers configured. -/
def c6wenv : RatesEnv :=
  { upsConfigured := false, fedexConfigured := false
    upsCall := .rejectedCall "unused", fedexCall := .rejectedCall "unused"
    fmtBusinessDays := fun d => "in " ++ toString d ++ " business days" }

theorem getRates_mock_iff_no_carrier_witness :
    isMockResp (getRates c6wenv 1 c1db) = (!c6wenv.upsConfigured && !c6wenv.fedexConfigured)
    ∧ isFailureResp (getRates c6wenv 1 c1db)
        = (decide (mergedRates c6wenv = [])
            && (c6wenv.upsConfigured || c6wenv.fedexConfigured))
    ∧ (isFailureResp (getRates c6wenv 1 c1db) = true →
        getRates c6wenv 1 c1db = .failureRates (mergedAdvisories c6wenv))
    ∧ (isMockResp (getRates c6wenv 1 c1db) = true →
        getRates c6wenv 1 c1db
          = .mockSuccess (generateMockRates (totalWeightOf c1items) c6wenv.fmtBusinessDays)
              ["No carriers configured - using mock data"]
        ∧ (respRates (getRates c6wenv 1 c1db)).length = 4) :=
  getRates_mock_iff_no_carrier c6wenv 1 c1db c1order c1items (by decide)

/-- **C8**: label retrieval round-trip — fetching an existing shipment with
stored label data returns exactly the base64-decoded stored bytes, with
content type determined by the stored-format table (PNG→image/png,
GIF→image/gif, PDF→application/pdf, JPG/JPEG→image/jpeg, ZPL and unknown
formats→application/octet-stream) and inline-versus-attachment disposition
chosen by the caller's download flag; a missing shipment, or one without
label data, is a NotFound. -/
theorem label_route_spec (db : DB) (sid : Nat) (download : Bool) :
    (db.shipments.find? (fun x => x.id == sid) = none →
      labelGET db sid download = .notFoundResp "Shipment not found")
    ∧ (∀ s, db.shipments.find? (fun x => x.id == sid) = some s → s.labelData = none →
        labelGET db sid download
          = .notFoundResp "No label data available for this shipment")
    ∧ (∀ s d, db.shipments.find? (fun x => x.id == sid) = some s → s.labelData = some d →
        labelGET db sid download
          = .okResp (base64Decode d)
              (labelContentType (strUpper (s.labelFormat.getD "PNG"))).1
              (labelDisposition download s))
    ∧ (labelContentType "PNG").1 = "image/png"
    ∧ (labelContentType "GIF").1 = "image/gif"
    ∧ (labelContentType "PDF").1 = "application/pdf"
    ∧ (labelContentType "JPG").1 = "image/jpeg"
    ∧ (labelContentType "JPEG").1 = "image/jpeg"
    ∧ (labelContentType "ZPL").1 = "application/octet-stream"
    ∧ (∀ f : String, f ∉ (["PNG", "GIF", "ZPL", "PDF", "JPG", "JPEG"] : List String) →
        (labelContentType f).1 = "application/octet-stream")
    ∧ (∀ s : Shipment,
        labelDisposition true s = "attachment; filename=\"" ++ labelFilename s ++ "\""
        ∧ labelDisposition false s = "inline; filename=\"" ++ labelFilename s ++ "\"") := by
  refine ⟨?_, ?_, ?_, by decide, by decide, by decide, by decide, by decide, by decide, ?_, ?_⟩
  · intro h
    simp only [labelGET, h]
  · intro s hs hd
    simp only [labelGET, hs, hd]
  · intro s d hs hd
    simp only [labelGET, hs, hd]
  · intro f hf
    simp only [List.mem_cons, List.not_mem_nil, or_false, not_or] at hf
    obtain ⟨h1, h2, h3, h4, h5, h6⟩ := hf
    simp [labelContentType, h1, h2, h3, h4, h5, h6]
  · intro s
    exact ⟨rfl, rfl⟩

/-- Witness shipment: label bytes `Man` stored as base64 `TWFu`, lowercase
stored format `png`. -/
def c8wship : Shipment :=
  { id := 1, orderId := 1, carrier := "UPS", service := "UPS Ground"
    trackingNumber := some "1Z99", labelUrl := some "/api/shipping/label/1"
    labelData := some "TWFu", labelFormat := some "png"
    shipmentCost := 12, shippedByUserId := 7 }

def c8wdb : DB :=
  { products := [], orders := [], orderItems := [], shipments := [c8wship]
    ledger := [], nextShipmentId := 2 }

theorem label_route_spec_witness :
    labelGET c8wdb 1 false
      = .okResp [77, 97, 110] "image/png" "inline; filename=\"label-UPS-1Z99.png\""
    ∧ labelGET c8wdb 2 false = .notFoundResp "Shipment not found" := by
  have h := label_route_spec c8wdb 1 false
  have h2 := label_route_spec c8wdb 2 false
  refine ⟨?_, ?_⟩
  · have hx := h.2.2.1 c8wship "TWFu" (by decide) (by decide)
    rw [hx]
    decide
  · exact h2.1 (by decide)
